import Mathlib

/-!
Shallow embedding of the Mario Expert decision engine
(src/scripts/mario_expert.py) and verification of its specification.

Modelling conventions:
- A tile grid is a list of rows of natural-number tile codes
  (numpy 2D array of nonnegative tile codes in the source).
- Emulator memory reads are nonnegative byte values collected in EmuMem,
  one field per address the source reads.
- A Python function that can raise (unpacking None, numpy IndexError on an
  out-of-range index, falling off the end of a match statement) is embedded
  as an Option-valued function; none models the raised exception or an
  undefined return.
- Python truthiness of a byte read r is r different from 0; the bitwise
  complement operator applied to a byte read is embedded exactly as the
  integer negative of the successor (pyNot), as in Python int semantics.
-/

/-- Action code DOWN, source constant DOWN_ARROW = 0. -/
def DOWN_ARROW : Nat := 0

/-- Action code LEFT, source constant LEFT_ARROW = 1. -/
def LEFT_ARROW : Nat := 1

/-- Action code RIGHT, source constant RIGHT_ARROW = 2. -/
def RIGHT_ARROW : Nat := 2

/-- Action code UP, source constant UP_ARROW = 3. -/
def UP_ARROW : Nat := 3

/-- Action code A button, source constant BUTTON_A = 4. -/
def BUTTON_A : Nat := 4

/-- Action code B button, source constant BUTTON_B = 5. -/
def BUTTON_B : Nat := 5

/-- Mode constant, source MarioExpert.NORMAL_MODE = 1. -/
def NORMAL_MODE : Nat := 1

/-- Mode constant, source MarioExpert.ENEMY_MODE = 2. -/
def ENEMY_MODE : Nat := 2

/-- Mode constant, source MarioExpert.COIN_MODE = 3. -/
def COIN_MODE : Nat := 3

/-- Default action frequency of the controller, source MarioController act_freq = 6;
used by step as the default hold duration. -/
def act_freq : Nat := 6

/-- Tile grid: row-major 2D array of tile codes (source game_area()). -/
abbrev Grid := List (List Nat)

/-- The emulator memory values the decision engine reads each tick:
ground contact byte (0xC20A), speed byte (0xC20C), player x (0xC202)
and enemy x (0xD103). All are nonnegative byte reads. -/
structure EmuMem where
  ground : Nat
  speed : Nat
  mario_x : Nat
  enemy_x : Nat

/-- Python bitwise complement of a nonnegative int: pyNot n = -(n+1). -/
def pyNot (n : Nat) : Int := -((n : Int) + 1)

/-- Reading grid cell (r, c); none models a numpy IndexError / absent cell. -/
def cell (g : Grid) (r c : Nat) : Option Nat :=
  g[r]?.bind (fun row => row[c]?)

/-- Leftmost index of value v in one row (helper for find_position,
mirroring the column part of np.where row-major order). -/
def find_in_row (v : Nat) : List Nat → Option Nat
  | [] => none
  | x :: xs => if x = v then some 0 else (find_in_row v xs).map (· + 1)

/-- Source find_position(grid, value): first occurrence of value in
row-major order via np.where; None when absent. -/
def find_position (g : Grid) (v : Nat) : Option (Nat × Nat) :=
  match g with
  | [] => none
  | row :: rest =>
    match find_in_row v row with
    | some c => some (0, c)
    | none => (find_position rest v).map (fun p => (p.1 + 1, p.2))

/-- Source np.any(np.isin(game_area, s)): some cell of g lies in the list s. -/
def anyIn (g : Grid) (s : List Nat) : Bool :=
  g.any (fun row => row.any (fun x => decide (x ∈ s)))

/-- Source np.any(~np.isin(game_area, s)): some cell of g lies outside the list s. -/
def anyOutside (g : Grid) (s : List Nat) : Bool :=
  g.any (fun row => row.any (fun x => decide (x ∉ s)))

/-- Source mario_movement_to_loot(grid, consumable). Returns the action code;
none models the TypeError raised when the player tile is absent while the
loot tile is present (the source assigns RIGHT_ARROW but does not return,
then unpacks None). The two physical-state reads keep the source's exact
conditions, including the bitwise complements in the second branch. -/
def mario_movement_to_loot (m : EmuMem) (g : Grid) (consumable : Nat) : Option Nat :=
  match find_position g consumable with
  | none => some DOWN_ARROW
  | some loot =>
    (find_position g 1).bind (fun mario =>
      if (loot.2 = mario.2 ∨ loot.2 = mario.2 + 1) ∧ m.ground ≠ 0 ∧ m.speed = 0 then
        some BUTTON_A
      else if ((loot.2 = mario.2 ∨ loot.2 = mario.2 + 1) ∧ pyNot m.ground ≠ 0) ∨
          pyNot m.speed = 0 then
        some DOWN_ARROW
      else if mario.2 < loot.2 then
        some RIGHT_ARROW
      else if loot.2 < mario.2 then
        some LEFT_ARROW
      else if mario.1 < loot.1 ∧ m.ground ≠ 0 ∧ m.speed = 0 then
        some BUTTON_A
      else
        some DOWN_ARROW)

/-- Source game_fsm(): the per-mode Action Selector. Returns the action code
paired with an optional explicit hold duration (the source returns either a
bare action or an (action, duration) tuple). none models the TypeError when
the player tile is absent, the IndexError of the unchecked column+3 read in
NORMAL mode, and the implicit None return when the mode matches no case. -/
def game_fsm (m : EmuMem) (state : Nat) (g : Grid) : Option (Nat × Option Nat) :=
  (find_position g 1).bind (fun mario =>
    if state = NORMAL_MODE then
      (cell g mario.1 (mario.2 + 3)).bind (fun t =>
        if t ≠ 0 then some (BUTTON_A, some 10) else some (RIGHT_ARROW, none))
    else if state = ENEMY_MODE then
      if (m.mario_x : Int) - (m.enemy_x : Int) < 15 ∧ m.ground ≠ 0 then
        some (BUTTON_A, none)
      else if (m.mario_x : Int) - (m.enemy_x : Int) < 5 ∧ m.ground ≠ 0 ∧ m.speed = 0 then
        some (BUTTON_A, none)
      else
        some (DOWN_ARROW, none)
    else if state = COIN_MODE then
      if anyIn g [6] then
        (mario_movement_to_loot m g 6).map (fun a => (a, none))
      else
        (mario_movement_to_loot m g 13).map (fun a => (a, none))
    else
      none)

/-- Source next_state(): the Mode Classifier. Given the grid and the current
mode, returns the mode for the next tick; none models the TypeError when the
player tile is absent, the IndexError of the unchecked column+2 read in the
debug print that runs before the mode match in every mode, and the
IndexError of the unchecked column+3 read in the COIN and ENEMY cases. A
fall-through of an if/elif chain leaves the mode unchanged, as the source's
assignment-free fall-through does. -/
def next_state (g : Grid) (state : Nat) : Option Nat :=
  (find_position g 1).bind (fun mario =>
    (cell g mario.1 (mario.2 + 2)).bind (fun _ =>
    if state = NORMAL_MODE then
      if anyOutside g [0, 1, 10, 13, 14, 6] then some ENEMY_MODE
      else if anyIn g [13, 6] then some COIN_MODE
      else if anyIn g [0, 1, 10, 13, 14] then some NORMAL_MODE
      else some state
    else if state = COIN_MODE then
      (cell g mario.1 (mario.2 + 3)).bind (fun t =>
        if t ≠ 0 then some NORMAL_MODE
        else if anyOutside g [0, 1, 10, 13, 14, 6] then some ENEMY_MODE
        else if anyIn g [13, 6] then some COIN_MODE
        else if anyIn g [0, 1, 10, 13, 14, 6] then some NORMAL_MODE
        else some state)
    else if state = ENEMY_MODE then
      (cell g mario.1 (mario.2 + 3)).bind (fun t =>
        if t ≠ 0 then some NORMAL_MODE
        else if anyOutside g [0, 1, 10, 13, 14, 6] then some ENEMY_MODE
        else if anyIn g [13, 6] then some COIN_MODE
        else if anyIn g [0, 1, 10, 13, 14] then some NORMAL_MODE
        else some state)
    else
      some state))

/-- Round trip of one snapshot: run the Mode Classifier, then the Action
Selector for the resulting mode on the same grid (the order named by the
specification's round-trip property). -/
def round_trip (m : EmuMem) (g : Grid) (state : Nat) : Option (Nat × Option Nat) :=
  (next_state g state).bind (fun s => game_fsm m s g)

/-- Source step(): unpack an action with optional duration, defaulting the
duration to the controller's act_freq when none was given. -/
def resolve_duration (x : Nat × Option Nat) : Nat × Nat :=
  (x.1, x.2.getD act_freq)

/-- Unfolding equation for find_position on a nonempty grid when the value
occurs in the first row. -/
lemma find_position_cons_hit (row : List Nat) (rest : Grid) (v c0 : Nat)
    (hrow : find_in_row v row = some c0) :
    find_position (row :: rest) v = some (0, c0) := by
  unfold find_position; rw [hrow]

/-- Unfolding equation for find_position on a nonempty grid when the value
misses the first row. -/
lemma find_position_cons_miss (row : List Nat) (rest : Grid) (v : Nat)
    (hrow : find_in_row v row = none) :
    find_position (row :: rest) v = (find_position rest v).map (fun p => (p.1 + 1, p.2)) := by
  conv_lhs => unfold find_position
  rw [hrow]

/-- Reading a cell of the first row of a grid. -/
lemma cell_cons_zero (row : List Nat) (rest : Grid) (c : Nat) :
    cell (row :: rest) 0 c = row[c]? := by simp [cell]

/-- Reading a cell of a later row of a grid. -/
lemma cell_cons_succ (row : List Nat) (rest : Grid) (r c : Nat) :
    cell (row :: rest) (r + 1) c = cell rest r c := by simp [cell]

/-- Helper: find_in_row misses exactly when the value is at no index of the row. -/
lemma find_in_row_eq_none (v : Nat) (row : List Nat) :
    find_in_row v row = none ↔ ∀ c : Nat, row[c]? ≠ some v := by
  induction row with
  | nil => simp [find_in_row]
  | cons x xs ih =>
    simp only [find_in_row]
    by_cases hx : x = v
    · rw [if_pos hx]
      constructor
      · intro h; cases h
      · intro h
        exfalso
        apply h 0
        rw [List.getElem?_cons_zero]
        exact congrArg some hx
    · rw [if_neg hx, Option.map_eq_none', ih]
      constructor
      · intro h c
        cases c with
        | zero =>
          rw [List.getElem?_cons_zero]
          intro h3
          exact hx (Option.some.inj h3)
        | succ c =>
          rw [List.getElem?_cons_succ]
          exact h c
      · intro h c
        have h4 := h (c + 1)
        rwa [List.getElem?_cons_succ] at h4

/-- Helper: a find_in_row hit is the value's position and every earlier
index of the row holds a different value. -/
lemma find_in_row_eq_some (v : Nat) (row : List Nat) (c : Nat)
    (h : find_in_row v row = some c) :
    row[c]? = some v ∧ ∀ c2 : Nat, c2 < c → row[c2]? ≠ some v := by
  induction row generalizing c with
  | nil => cases h
  | cons x xs ih =>
    simp only [find_in_row] at h
    by_cases hx : x = v
    · rw [if_pos hx] at h
      injection h with h
      subst h
      refine ⟨?_, ?_⟩
      · rw [List.getElem?_cons_zero]
        exact congrArg some hx
      · intro c2 hc2
        exact absurd hc2 (Nat.not_lt_zero c2)
    · rw [if_neg hx, Option.map_eq_some'] at h
      obtain ⟨c0, hc0, rfl⟩ := h
      obtain ⟨h1, h2⟩ := ih c0 hc0
      refine ⟨by rwa [List.getElem?_cons_succ], ?_⟩
      intro c2 hc2
      cases c2 with
      | zero =>
        rw [List.getElem?_cons_zero]
        intro h3
        exact hx (Option.some.inj h3)
      | succ c2 =>
        rw [List.getElem?_cons_succ]
        exact h2 c2 (Nat.lt_of_succ_lt_succ hc2)

/-- Helper: find_position misses exactly when the value is at no cell of the grid. -/
lemma find_position_eq_none (g : Grid) (v : Nat) :
    find_position g v = none ↔ ∀ r c : Nat, cell g r c ≠ some v := by
  induction g with
  | nil => simp [find_position, cell]
  | cons row rest ih =>
    constructor
    · intro h r c
      cases hrow : find_in_row v row with
      | some c0 =>
        rw [find_position_cons_hit row rest v c0 hrow] at h
        cases h
      | none =>
        rw [find_position_cons_miss row rest v hrow, Option.map_eq_none'] at h
        cases r with
        | zero =>
          rw [cell_cons_zero]
          exact (find_in_row_eq_none v row).mp hrow c
        | succ r =>
          rw [cell_cons_succ]
          exact (ih.mp h) r c
    · intro h
      cases hrow : find_in_row v row with
      | some c0 =>
        exfalso
        have h1 := (find_in_row_eq_some v row c0 hrow).1
        apply h 0 c0
        rwa [cell_cons_zero]
      | none =>
        rw [find_position_cons_miss row rest v hrow, Option.map_eq_none', ih]
        intro r c
        have h5 := h (r + 1) c
        rwa [cell_cons_succ] at h5

/-- Helper: a find_position hit is the value's cell and every row-major
earlier cell holds a different value. -/
lemma find_position_eq_some (g : Grid) (v : Nat) (r c : Nat)
    (h : find_position g v = some (r, c)) :
    cell g r c = some v ∧
      ∀ r2 c2 : Nat, (r2 < r ∨ (r2 = r ∧ c2 < c)) → cell g r2 c2 ≠ some v := by
  induction g generalizing r c with
  | nil => cases h
  | cons row rest ih =>
    cases hrow : find_in_row v row with
    | some c0 =>
      rw [find_position_cons_hit row rest v c0 hrow] at h
      injection h with h
      injection h with hr hc
      subst hr; subst hc
      obtain ⟨h1, h2⟩ := find_in_row_eq_some v row c0 hrow
      refine ⟨by rwa [cell_cons_zero], ?_⟩
      intro r2 c2 hlt
      rcases hlt with hlt | ⟨rfl, hlt⟩
      · exact absurd hlt (Nat.not_lt_zero r2)
      · rw [cell_cons_zero]
        exact h2 c2 hlt
    | none =>
      rw [find_position_cons_miss row rest v hrow, Option.map_eq_some'] at h
      obtain ⟨⟨r0, c0⟩, hp, heq⟩ := h
      have heq2 : (r0 + 1, c0) = (r, c) := heq
      injection heq2 with hr hc
      subst hr; subst hc
      obtain ⟨h1, h2⟩ := ih r0 c0 hp
      refine ⟨by rwa [cell_cons_succ], ?_⟩
      intro r2 c2 hlt
      cases r2 with
      | zero =>
        rw [cell_cons_zero]
        exact (find_in_row_eq_none v row).mp hrow c2
      | succ r2 =>
        rw [cell_cons_succ]
        refine h2 r2 c2 ?_
        rcases hlt with hlt | ⟨heq3, hlt⟩
        · exact Or.inl (Nat.lt_of_succ_lt_succ hlt)
        · exact Or.inr ⟨Nat.succ.inj heq3, hlt⟩

/-- Unfolding equation of the Action Selector in NORMAL mode. -/
lemma game_fsm_normal_eq (m : EmuMem) (g : Grid) :
    game_fsm m NORMAL_MODE g = (find_position g 1).bind (fun mario =>
      (cell g mario.1 (mario.2 + 3)).bind (fun t =>
        if t ≠ 0 then some (BUTTON_A, some 10) else some (RIGHT_ARROW, none))) := rfl

/-- Unfolding equation of the Action Selector in ENEMY mode. -/
lemma game_fsm_enemy_eq (m : EmuMem) (g : Grid) :
    game_fsm m ENEMY_MODE g = (find_position g 1).bind (fun _ =>
      if (m.mario_x : Int) - (m.enemy_x : Int) < 15 ∧ m.ground ≠ 0 then
        some (BUTTON_A, none)
      else if (m.mario_x : Int) - (m.enemy_x : Int) < 5 ∧ m.ground ≠ 0 ∧ m.speed = 0 then
        some (BUTTON_A, none)
      else
        some (DOWN_ARROW, none)) := rfl

/-- Unfolding equation of the Action Selector in COIN mode. -/
lemma game_fsm_coin_eq (m : EmuMem) (g : Grid) :
    game_fsm m COIN_MODE g = (find_position g 1).bind (fun _ =>
      if anyIn g [6] then (mario_movement_to_loot m g 6).map (fun a => (a, none))
      else (mario_movement_to_loot m g 13).map (fun a => (a, none))) := rfl

/-- Unfolding equation of the Mode Classifier in NORMAL mode. -/
lemma next_state_normal_eq (g : Grid) :
    next_state g NORMAL_MODE = (find_position g 1).bind (fun mario =>
      (cell g mario.1 (mario.2 + 2)).bind (fun _ =>
        if anyOutside g [0, 1, 10, 13, 14, 6] then some ENEMY_MODE
        else if anyIn g [13, 6] then some COIN_MODE
        else if anyIn g [0, 1, 10, 13, 14] then some NORMAL_MODE
        else some NORMAL_MODE)) := rfl

/-- Unfolding equation of the Mode Classifier in COIN mode. -/
lemma next_state_coin_eq (g : Grid) :
    next_state g COIN_MODE = (find_position g 1).bind (fun mario =>
      (cell g mario.1 (mario.2 + 2)).bind (fun _ =>
        (cell g mario.1 (mario.2 + 3)).bind (fun t =>
          if t ≠ 0 then some NORMAL_MODE
          else if anyOutside g [0, 1, 10, 13, 14, 6] then some ENEMY_MODE
          else if anyIn g [13, 6] then some COIN_MODE
          else if anyIn g [0, 1, 10, 13, 14, 6] then some NORMAL_MODE
          else some COIN_MODE))) := rfl

/-- Unfolding equation of the Mode Classifier in ENEMY mode. -/
lemma next_state_enemy_eq (g : Grid) :
    next_state g ENEMY_MODE = (find_position g 1).bind (fun mario =>
      (cell g mario.1 (mario.2 + 2)).bind (fun _ =>
        (cell g mario.1 (mario.2 + 3)).bind (fun t =>
          if t ≠ 0 then some NORMAL_MODE
          else if anyOutside g [0, 1, 10, 13, 14, 6] then some ENEMY_MODE
          else if anyIn g [13, 6] then some COIN_MODE
          else if anyIn g [0, 1, 10, 13, 14] then some NORMAL_MODE
          else some ENEMY_MODE))) := rfl

/-- Helper: a cell value that lies in the list makes anyIn true. -/
lemma anyIn_of_cell (g : Grid) (s : List Nat) (r c x : Nat)
    (hc : cell g r c = some x) (hx : x ∈ s) : anyIn g s = true := by
  unfold cell at hc
  rw [Option.bind_eq_some] at hc
  obtain ⟨row, hg, hrow⟩ := hc
  unfold anyIn
  rw [List.any_eq_true]
  refine ⟨row, List.getElem?_mem hg, ?_⟩
  rw [List.any_eq_true]
  exact ⟨x, List.getElem?_mem hrow, by simpa using hx⟩

/-- Helper: the player cell found by find_position satisfies the final
benign membership test of the Mode Classifier. -/
lemma anyIn_player (g : Grid) (r c : Nat) (hm : find_position g 1 = some (r, c)) :
    anyIn g [0, 1, 10, 13, 14] = true :=
  anyIn_of_cell g _ r c 1 (find_position_eq_some g 1 r c hm).1 (by decide)

/-- Helper: the player cell found by find_position satisfies the final
benign membership test of the COIN branch of the Mode Classifier. -/
lemma anyIn_player6 (g : Grid) (r c : Nat) (hm : find_position g 1 = some (r, c)) :
    anyIn g [0, 1, 10, 13, 14, 6] = true :=
  anyIn_of_cell g _ r c 1 (find_position_eq_some g 1 r c hm).1 (by decide)

/-- Helper: if a cell exists at some column of a row then every earlier
column of that row also holds a cell. -/
lemma cell_exists_of_le (g : Grid) (r n1 n2 t : Nat)
    (h : cell g r n2 = some t) (hle : n1 ≤ n2) : ∃ u, cell g r n1 = some u := by
  unfold cell at h ⊢
  rw [Option.bind_eq_some] at h
  obtain ⟨row, hg, hrow⟩ := h
  rw [hg, Option.some_bind]
  have hlt2 : n2 < row.length := (List.getElem?_eq_some.mp hrow).1
  have hlt1 : n1 < row.length := Nat.lt_of_le_of_lt hle hlt2
  exact ⟨row[n1], List.getElem?_eq_getElem hlt1⟩

/-- Helper: with the player tile present, mario_movement_to_loot always
returns one of the six action codes. -/
lemma mario_movement_to_loot_defined (m : EmuMem) (g : Grid) (v r c : Nat)
    (hm : find_position g 1 = some (r, c)) :
    ∃ a : Nat, mario_movement_to_loot m g v = some a ∧ a ≤ 5 := by
  unfold mario_movement_to_loot
  cases hl : find_position g v with
  | none => exact ⟨DOWN_ARROW, rfl, by norm_num [DOWN_ARROW]⟩
  | some loot =>
    simp only [hm, Option.some_bind]
    split
    · exact ⟨BUTTON_A, rfl, by norm_num [BUTTON_A]⟩
    · split
      · exact ⟨DOWN_ARROW, rfl, by norm_num [DOWN_ARROW]⟩
      · split
        · exact ⟨RIGHT_ARROW, rfl, by norm_num [RIGHT_ARROW]⟩
        · split
          · exact ⟨LEFT_ARROW, rfl, by norm_num [LEFT_ARROW]⟩
          · split
            · exact ⟨BUTTON_A, rfl, by norm_num [BUTTON_A]⟩
            · exact ⟨DOWN_ARROW, rfl, by norm_num [DOWN_ARROW]⟩

/-- Helper: with the player tile present and the column+3 cell readable, the
NORMAL mode Action Selector is defined. -/
lemma game_fsm_normal_defined (m : EmuMem) (g : Grid) (r c t : Nat)
    (hm : find_position g 1 = some (r, c)) (ht : cell g r (c + 3) = some t) :
    ∃ a d, game_fsm m NORMAL_MODE g = some (a, d) ∧ a ≤ 5 := by
  rw [game_fsm_normal_eq]
  simp only [hm, Option.some_bind, ht]
  split
  · exact ⟨BUTTON_A, some 10, rfl, by norm_num [BUTTON_A]⟩
  · exact ⟨RIGHT_ARROW, none, rfl, by norm_num [RIGHT_ARROW]⟩

/-- Helper: with the player tile present, the ENEMY mode Action Selector
returns BUTTON_A or DOWN with default duration. -/
lemma game_fsm_enemy_defined (m : EmuMem) (g : Grid) (r c : Nat)
    (hm : find_position g 1 = some (r, c)) :
    ∃ a, game_fsm m ENEMY_MODE g = some (a, none) ∧ (a = BUTTON_A ∨ a = DOWN_ARROW) := by
  rw [game_fsm_enemy_eq]
  simp only [hm, Option.some_bind]
  split
  · exact ⟨BUTTON_A, rfl, Or.inl rfl⟩
  · split
    · exact ⟨BUTTON_A, rfl, Or.inl rfl⟩
    · exact ⟨DOWN_ARROW, rfl, Or.inr rfl⟩

/-- Helper: with the player tile present, the COIN mode Action Selector is
defined and returns an action code with default duration. -/
lemma game_fsm_coin_defined (m : EmuMem) (g : Grid) (r c : Nat)
    (hm : find_position g 1 = some (r, c)) :
    ∃ a : Nat, game_fsm m COIN_MODE g = some (a, none) ∧ a ≤ 5 := by
  rw [game_fsm_coin_eq]
  simp only [hm, Option.some_bind]
  split
  · obtain ⟨a, ha, hle⟩ := mario_movement_to_loot_defined m g 6 r c hm
    exact ⟨a, by rw [ha]; rfl, hle⟩
  · obtain ⟨a, ha, hle⟩ := mario_movement_to_loot_defined m g 13 r c hm
    exact ⟨a, by rw [ha]; rfl, hle⟩

/-- Helper: with the player tile present and the column+3 cell readable, the
Mode Classifier is defined and yields one of the three modes. -/
lemma next_state_defined (g : Grid) (s r c t : Nat)
    (hs : s = NORMAL_MODE ∨ s = ENEMY_MODE ∨ s = COIN_MODE)
    (hm : find_position g 1 = some (r, c))
    (ht : cell g r (c + 3) = some t) :
    ∃ s2, next_state g s = some s2 ∧
      (s2 = NORMAL_MODE ∨ s2 = ENEMY_MODE ∨ s2 = COIN_MODE) := by
  obtain ⟨u, hu⟩ := cell_exists_of_le g r (c + 2) (c + 3) t ht (by omega)
  rcases hs with rfl | rfl | rfl
  · rw [next_state_normal_eq]
    simp only [hm, Option.some_bind, hu]
    split
    · exact ⟨ENEMY_MODE, rfl, Or.inr (Or.inl rfl)⟩
    · split
      · exact ⟨COIN_MODE, rfl, Or.inr (Or.inr rfl)⟩
      · split
        · exact ⟨NORMAL_MODE, rfl, Or.inl rfl⟩
        · exact ⟨NORMAL_MODE, rfl, Or.inl rfl⟩
  · rw [next_state_enemy_eq]
    simp only [hm, Option.some_bind, hu, ht]
    split
    · exact ⟨NORMAL_MODE, rfl, Or.inl rfl⟩
    · split
      · exact ⟨ENEMY_MODE, rfl, Or.inr (Or.inl rfl)⟩
      · split
        · exact ⟨COIN_MODE, rfl, Or.inr (Or.inr rfl)⟩
        · split
          · exact ⟨NORMAL_MODE, rfl, Or.inl rfl⟩
          · exact ⟨ENEMY_MODE, rfl, Or.inr (Or.inl rfl)⟩
  · rw [next_state_coin_eq]
    simp only [hm, Option.some_bind, hu, ht]
    split
    · exact ⟨NORMAL_MODE, rfl, Or.inl rfl⟩
    · split
      · exact ⟨ENEMY_MODE, rfl, Or.inr (Or.inl rfl)⟩
      · split
        · exact ⟨COIN_MODE, rfl, Or.inr (Or.inr rfl)⟩
        · split
          · exact ⟨NORMAL_MODE, rfl, Or.inl rfl⟩
          · exact ⟨COIN_MODE, rfl, Or.inr (Or.inr rfl)⟩

/-- C1 (counterexample): on a snapshot whose grid holds no player tile, the
Mode Classifier and the Action Selector both fail (none models the TypeError
raised when the missed player lookup is unpacked), so the round trip does
not produce the safe default DOWN the claim promises. -/
theorem C1_counterexample :
    round_trip ⟨1, 0, 0, 0⟩ [[0]] NORMAL_MODE = none ∧
    game_fsm ⟨1, 0, 0, 0⟩ NORMAL_MODE [[0]] = none := by decide

/-- C1 (amended): when the player tile is present and the cell three columns
ahead of it exists, running the Mode Classifier and then the Action Selector
for the resulting mode on the same snapshot returns a defined action code;
a missing COLLECT target still yields the default DOWN inside that run, but
a missing player tile makes the tick fail instead of defaulting. -/
theorem C1_round_trip_defined (m : EmuMem) (g : Grid) (s r c t : Nat)
    (hs : s = NORMAL_MODE ∨ s = ENEMY_MODE ∨ s = COIN_MODE)
    (hm : find_position g 1 = some (r, c))
    (ht : cell g r (c + 3) = some t) :
    ∃ a d, round_trip m g s = some (a, d) ∧ a ≤ 5 := by
  obtain ⟨s2, hs2, hs2mem⟩ := next_state_defined g s r c t hs hm ht
  unfold round_trip
  rw [hs2, Option.some_bind]
  rcases hs2mem with rfl | rfl | rfl
  · exact game_fsm_normal_defined m g r c t hm ht
  · obtain ⟨a, ha, hor⟩ := game_fsm_enemy_defined m g r c hm
    refine ⟨a, none, ha, ?_⟩
    rcases hor with rfl | rfl
    · norm_num [BUTTON_A]
    · norm_num [DOWN_ARROW]
  · obtain ⟨a, ha, hle⟩ := game_fsm_coin_defined m g r c hm
    exact ⟨a, none, ha, hle⟩

/-- C1 (witness): the amended round-trip theorem applied to a concrete
snapshot with the player at the left edge of a clear row. -/
theorem C1_round_trip_defined_witness :
    find_position [[1, 0, 0, 0]] 1 = some (0, 0) ∧
    cell [[1, 0, 0, 0]] 0 3 = some 0 ∧
    ∃ a d, round_trip ⟨1, 0, 0, 0⟩ [[1, 0, 0, 0]] NORMAL_MODE = some (a, d) ∧ a ≤ 5 :=
  ⟨by decide, by decide,
    C1_round_trip_defined ⟨1, 0, 0, 0⟩ [[1, 0, 0, 0]] NORMAL_MODE 0 0 0
      (Or.inl rfl) (by decide) (by decide)⟩

/-- C2 (code-bug evidence): with the loot tile present and the player tile
absent, mario_movement_to_loot does not return the documented RIGHT default;
the function assigns RIGHT but does not return, then unpacks the missed
player lookup and fails (none models the raised TypeError). The failure is
independent of the physical-state readings. -/
theorem C2_crash_when_player_absent (m : EmuMem) :
    mario_movement_to_loot m [[13]] 13 = none := rfl

/-- C2 (witness): the failing input evaluated at concrete memory readings. -/
theorem C2_crash_when_player_absent_witness :
    mario_movement_to_loot ⟨1, 0, 0, 0⟩ [[13]] 13 = none :=
  C2_crash_when_player_absent ⟨1, 0, 0, 0⟩

/-- C3 (counterexample): with the player at column 0 and a nonzero tile three
columns ahead, the classifier in NORMAL mode is not forced to NORMAL (a
hostile code still yields ENEMY), while in COLLECT mode the shortcut does
fire and forces NORMAL past the hostile code; the claim has the asymmetry
backwards. -/
theorem C3_counterexample :
    cell [[1, 0, 0, 14, 15]] 0 3 = some 14 ∧
    next_state [[1, 0, 0, 14, 15]] NORMAL_MODE = some ENEMY_MODE ∧
    some ENEMY_MODE ≠ some NORMAL_MODE ∧
    next_state [[1, 0, 0, 14, 15]] COIN_MODE = some NORMAL_MODE := by decide

/-- C3 (amended): the obstacle-three-ahead early exit forces the next mode to
NORMAL in ENEMY and COLLECT modes, while NORMAL mode uses the unmodified
priority order of the classifier rules. -/
theorem C3_shortcut_amended (g : Grid) (r c t : Nat)
    (hm : find_position g 1 = some (r, c))
    (ht : cell g r (c + 3) = some t) (htne : t ≠ 0) :
    next_state g ENEMY_MODE = some NORMAL_MODE ∧
    next_state g COIN_MODE = some NORMAL_MODE ∧
    next_state g NORMAL_MODE = some (
      if anyOutside g [0, 1, 10, 13, 14, 6] then ENEMY_MODE
      else if anyIn g [13, 6] then COIN_MODE
      else NORMAL_MODE) := by
  obtain ⟨u, hu⟩ := cell_exists_of_le g r (c + 2) (c + 3) t ht (by omega)
  refine ⟨?_, ?_, ?_⟩
  · rw [next_state_enemy_eq]
    simp only [hm, Option.some_bind, hu, ht]
    rw [if_pos htne]
  · rw [next_state_coin_eq]
    simp only [hm, Option.some_bind, hu, ht]
    rw [if_pos htne]
  · rw [next_state_normal_eq]
    simp only [hm, Option.some_bind, hu]
    by_cases h1 : anyOutside g [0, 1, 10, 13, 14, 6] = true
    · rw [if_pos h1, if_pos h1]
    · rw [if_neg h1, if_neg h1]
      by_cases h2 : anyIn g [13, 6] = true
      · rw [if_pos h2, if_pos h2]
      · rw [if_neg h2, if_neg h2]
        by_cases h3 : anyIn g [0, 1, 10, 13, 14] = true
        · rw [if_pos h3]
        · rw [if_neg h3]

/-- C3 (witness): the amended shortcut theorem applied to the concrete grid
of the counterexample. -/
theorem C3_shortcut_amended_witness :
    next_state [[1, 0, 0, 14, 15]] ENEMY_MODE = some NORMAL_MODE ∧
    next_state [[1, 0, 0, 14, 15]] COIN_MODE = some NORMAL_MODE ∧
    next_state [[1, 0, 0, 14, 15]] NORMAL_MODE = some (
      if anyOutside [[1, 0, 0, 14, 15]] [0, 1, 10, 13, 14, 6] then ENEMY_MODE
      else if anyIn [[1, 0, 0, 14, 15]] [13, 6] then COIN_MODE
      else NORMAL_MODE) :=
  C3_shortcut_amended [[1, 0, 0, 14, 15]] 0 0 14 (by decide) (by decide) (by decide)

/-- C4: when both player and target are found, the target column lies in the
tolerance band, and the player lacks ground contact or has nonzero speed,
the Navigation Heuristic returns DOWN and not BUTTON_A. -/
theorem C4_band_airborne_down (m : EmuMem) (g : Grid) (v mr mc lr lc : Nat)
    (hm : find_position g 1 = some (mr, mc))
    (hl : find_position g v = some (lr, lc))
    (hband : lc = mc ∨ lc = mc + 1)
    (hair : m.ground = 0 ∨ m.speed ≠ 0) :
    mario_movement_to_loot m g v = some DOWN_ARROW ∧ DOWN_ARROW ≠ BUTTON_A := by
  refine ⟨?_, by decide⟩
  unfold mario_movement_to_loot
  simp only [hl, hm, Option.some_bind]
  have hcond1 : ¬((lc = mc ∨ lc = mc + 1) ∧ m.ground ≠ 0 ∧ m.speed = 0) := by
    rintro ⟨-, hg, hsp⟩
    rcases hair with h | h
    · exact hg h
    · exact h hsp
  have hcond2 : ((lc = mc ∨ lc = mc + 1) ∧ pyNot m.ground ≠ 0) ∨ pyNot m.speed = 0 := by
    refine Or.inl ⟨hband, ?_⟩
    unfold pyNot
    omega
  rw [if_neg hcond1, if_pos hcond2]

/-- C4 (witness): player at (0,0), loot one column ahead, player not touching
the ground; the heuristic rides through with DOWN. -/
theorem C4_band_airborne_down_witness :
    mario_movement_to_loot ⟨0, 0, 0, 0⟩ [[1, 13]] 13 = some DOWN_ARROW ∧
    DOWN_ARROW ≠ BUTTON_A :=
  C4_band_airborne_down ⟨0, 0, 0, 0⟩ [[1, 13]] 13 0 0 0 1 (by decide) (by decide)
    (Or.inr rfl) (Or.inl rfl)

/-- C5 (counterexample): a grid holding the hostile code 15 for which the
classifier in ENEMY mode yields NORMAL, not ENEMY: the obstacle-three-ahead
early exit overrides the hostile-code rule. -/
theorem C5_counterexample :
    anyOutside [[1, 0, 0, 14, 15]] [0, 1, 10, 13, 14, 6] = true ∧
    next_state [[1, 0, 0, 14, 15]] ENEMY_MODE = some NORMAL_MODE ∧
    some NORMAL_MODE ≠ some ENEMY_MODE := by decide

/-- C5 (amended): whenever the classifier completes and the early exit does
not fire (the player is present, the cell two columns ahead of the player
read by the debug print exists, and in ENEMY or COLLECT mode the cell three
columns ahead exists and is empty), any cell outside the benign set forces
ENEMY, taking priority over any simultaneous collectible codes. -/
theorem C5_enemy_priority_amended (g : Grid) (s r c u : Nat)
    (hm : find_position g 1 = some (r, c))
    (hu : cell g r (c + 2) = some u)
    (hh : anyOutside g [0, 1, 10, 13, 14, 6] = true)
    (hs : s = NORMAL_MODE ∨ ((s = ENEMY_MODE ∨ s = COIN_MODE) ∧ cell g r (c + 3) = some 0)) :
    next_state g s = some ENEMY_MODE := by
  rcases hs with rfl | ⟨hs2, ht⟩
  · rw [next_state_normal_eq]
    simp only [hm, Option.some_bind, hu]
    rw [if_pos hh]
  · rcases hs2 with rfl | rfl
    · rw [next_state_enemy_eq]
      simp only [hm, Option.some_bind, hu, ht]
      rw [if_neg (by simp), if_pos hh]
    · rw [next_state_coin_eq]
      simp only [hm, Option.some_bind, hu, ht]
      rw [if_neg (by simp), if_pos hh]

/-- C5 (witness): hostile code 15 and collectible 13 present together, mode
NORMAL, debug-print cell readable; the classifier picks ENEMY over COLLECT. -/
theorem C5_enemy_priority_amended_witness :
    next_state [[1, 13, 0, 0, 15]] NORMAL_MODE = some ENEMY_MODE :=
  C5_enemy_priority_amended [[1, 13, 0, 0, 15]] NORMAL_MODE 0 0 0 (by decide) (by decide)
    (by decide) (Or.inl rfl)

/-- C6: find_position returns the first matching cell in row-major order,
returns none exactly when the code appears at no cell of the grid (it is a
total function, so it never raises), and is idempotent on an unchanged grid. -/
theorem C6_find_position_contract (g : Grid) (v : Nat) :
    (find_position g v = none ↔ ∀ r c : Nat, cell g r c ≠ some v) ∧
    (∀ r c : Nat, find_position g v = some (r, c) →
      cell g r c = some v ∧
        ∀ r2 c2 : Nat, (r2 < r ∨ (r2 = r ∧ c2 < c)) → cell g r2 c2 ≠ some v) ∧
    find_position g v = find_position g v :=
  ⟨find_position_eq_none g v, fun r c h => find_position_eq_some g v r c h, rfl⟩

/-- C6 (witness): the first-match clause of the contract evaluated on a grid
holding the code 13 twice; the row-major first copy at (0,1) is reported. -/
theorem C6_find_position_contract_witness :
    cell [[0, 13], [13, 0]] 0 1 = some 13 :=
  (((C6_find_position_contract [[0, 13], [13, 0]] 13).2.1) 0 1 (by decide)).1

/-- C7: in NORMAL mode with the player located and the cell three columns
ahead readable, a nonzero tile there yields BUTTON_A held for the fixed long
duration 10, and an empty tile yields RIGHT with the default duration
act_freq supplied by step. -/
theorem C7_normal_selector (m : EmuMem) (g : Grid) (r c t : Nat)
    (hm : find_position g 1 = some (r, c))
    (ht : cell g r (c + 3) = some t) :
    (t ≠ 0 → game_fsm m NORMAL_MODE g = some (BUTTON_A, some 10)) ∧
    (t = 0 → game_fsm m NORMAL_MODE g = some (RIGHT_ARROW, none) ∧
      resolve_duration (RIGHT_ARROW, none) = (RIGHT_ARROW, act_freq)) := by
  constructor
  · intro htne
    rw [game_fsm_normal_eq]
    simp only [hm, Option.some_bind, ht]
    rw [if_pos htne]
  · intro ht0
    refine ⟨?_, rfl⟩
    rw [game_fsm_normal_eq]
    simp only [hm, Option.some_bind, ht]
    rw [if_neg (by simp [ht0])]

/-- C7 (witness): a pipe tile three columns ahead of the player makes the
NORMAL mode selector jump with the long duration. -/
theorem C7_normal_selector_witness :
    game_fsm ⟨0, 0, 0, 0⟩ NORMAL_MODE [[1, 0, 0, 14]] = some (BUTTON_A, some 10) :=
  (C7_normal_selector ⟨0, 0, 0, 0⟩ [[1, 0, 0, 14]] 0 0 14 (by decide) (by decide)).1
    (by decide)

/-- C8 (counterexample): a grid with no cells satisfies no classifier rule,
yet the classifier does not leave the mode unchanged there: the player
lookup misses and the classifier fails (none models the raised TypeError). -/
theorem C8_counterexample :
    anyOutside ([[]] : Grid) [0, 1, 10, 13, 14, 6] = false ∧
    anyIn ([[]] : Grid) [13, 6] = false ∧
    anyIn ([[]] : Grid) [0, 1, 10, 13, 14] = false ∧
    next_state ([[]] : Grid) NORMAL_MODE = none ∧
    next_state ([[]] : Grid) NORMAL_MODE ≠ some NORMAL_MODE := by decide

/-- C8 (amended): a grid matching no classifier rule cannot contain the
player tile (the player tile alone satisfies the final rule), so on every
such grid the classifier fails at the player lookup rather than leaving the
mode unchanged; consequently the no-rule fall-through is unreachable on any
grid where the classifier completes. -/
theorem C8_no_rule_crash (g : Grid) (s : Nat)
    (_h1 : anyOutside g [0, 1, 10, 13, 14, 6] = false)
    (_h2 : anyIn g [13, 6] = false)
    (h3 : anyIn g [0, 1, 10, 13, 14] = false) :
    find_position g 1 = none ∧ next_state g s = none := by
  have hnone : find_position g 1 = none := by
    cases hfp : find_position g 1 with
    | none => rfl
    | some p =>
      exfalso
      obtain ⟨r0, c0⟩ := p
      have hc := (find_position_eq_some g 1 r0 c0 hfp).1
      have hin := anyIn_of_cell g [0, 1, 10, 13, 14] r0 c0 1 hc (by decide)
      rw [h3] at hin
      cases hin
  refine ⟨hnone, ?_⟩
  unfold next_state
  rw [hnone, Option.none_bind]

/-- C8 (witness): the amended theorem applied to the grid with one empty row. -/
theorem C8_no_rule_crash_witness :
    find_position ([[]] : Grid) 1 = none ∧ next_state ([[]] : Grid) NORMAL_MODE = none :=
  C8_no_rule_crash [[]] NORMAL_MODE (by decide) (by decide) (by decide)

/-- C9: in ENEMY mode the Action Selector only ever returns BUTTON_A or DOWN,
and the gap it tests is the signed difference of player x minus enemy x:
whenever the enemy is ahead of the player (so the difference is negative,
hence below 15) and the ground-contact byte is nonzero, it returns BUTTON_A. -/
theorem C9_enemy_invariant (m : EmuMem) (g : Grid) (r c : Nat)
    (hm : find_position g 1 = some (r, c)) :
    (∃ a, game_fsm m ENEMY_MODE g = some (a, none) ∧ (a = BUTTON_A ∨ a = DOWN_ARROW)) ∧
    (m.mario_x < m.enemy_x → m.ground ≠ 0 →
      game_fsm m ENEMY_MODE g = some (BUTTON_A, none)) := by
  refine ⟨game_fsm_enemy_defined m g r c hm, ?_⟩
  intro hlt hg
  rw [game_fsm_enemy_eq]
  simp only [hm, Option.some_bind]
  rw [if_pos ⟨by omega, hg⟩]

/-- C9 (witness): enemy at x 10 ahead of the player at x 3, player grounded;
the ENEMY mode selector jumps. -/
theorem C9_enemy_invariant_witness :
    (3 : Nat) < 10 ∧ (1 : Nat) ≠ 0 ∧
    game_fsm ⟨1, 0, 3, 10⟩ ENEMY_MODE [[1]] = some (BUTTON_A, none) :=
  ⟨by decide, by decide,
    (C9_enemy_invariant ⟨1, 0, 3, 10⟩ [[1]] 0 0 (by decide)).2 (by decide) (by decide)⟩

/-- C10: the NORMAL mode selector and the ENEMY and COLLECT classifier
shortcut read the cell at the player column plus three with no bounds check:
whenever the player row ends within three columns of the player, the read is
out of bounds and the whole tick fails (none models the IndexError). -/
theorem C10_oob_crash (m : EmuMem) (g : Grid) (r c : Nat) (row : List Nat)
    (hm : find_position g 1 = some (r, c))
    (hrow : g[r]? = some row)
    (hlen : row.length ≤ c + 3) :
    game_fsm m NORMAL_MODE g = none ∧
    next_state g ENEMY_MODE = none ∧
    next_state g COIN_MODE = none := by
  have hcell3 : cell g r (c + 3) = none := by
    unfold cell
    rw [hrow, Option.some_bind]
    exact List.getElem?_eq_none_iff.mpr hlen
  have hfsm : game_fsm m NORMAL_MODE g = none := by
    rw [game_fsm_normal_eq]
    simp only [hm, Option.some_bind, hcell3, Option.none_bind]
  by_cases h2 : row.length ≤ c + 2
  · have hcell2 : cell g r (c + 2) = none := by
      unfold cell
      rw [hrow, Option.some_bind]
      exact List.getElem?_eq_none_iff.mpr h2
    refine ⟨hfsm, ?_, ?_⟩
    · rw [next_state_enemy_eq]
      simp only [hm, Option.some_bind, hcell2, Option.none_bind]
    · rw [next_state_coin_eq]
      simp only [hm, Option.some_bind, hcell2, Option.none_bind]
  · have hlt : c + 2 < row.length := Nat.lt_of_not_le h2
    have hcell2 : cell g r (c + 2) = some row[c + 2] := by
      unfold cell
      rw [hrow, Option.some_bind]
      exact List.getElem?_eq_getElem hlt
    refine ⟨hfsm, ?_, ?_⟩
    · rw [next_state_enemy_eq]
      simp only [hm, Option.some_bind, hcell2, hcell3, Option.none_bind]
    · rw [next_state_coin_eq]
      simp only [hm, Option.some_bind, hcell2, hcell3, Option.none_bind]

/-- C10 (witness): the player on the rightmost column of a two-column grid;
selector and classifier shortcut both fail. -/
theorem C10_oob_crash_witness :
    game_fsm ⟨0, 0, 0, 0⟩ NORMAL_MODE [[0, 1]] = none ∧
    next_state [[0, 1]] ENEMY_MODE = none ∧
    next_state [[0, 1]] COIN_MODE = none :=
  C10_oob_crash ⟨0, 0, 0, 0⟩ [[0, 1]] 0 1 [0, 1] (by decide) (by decide) (by decide)

example : find_position [[0, 13], [13, 0]] 13 = some (0, 1) := by decide
example : find_position [[0, 0], [0, 0]] 13 = none := by decide
example : next_state [[1, 0, 0, 14, 15]] NORMAL_MODE = some ENEMY_MODE := by decide
example : next_state [[1, 0, 0, 14, 15]] ENEMY_MODE = some NORMAL_MODE := by decide
example : next_state [[1, 0, 0, 14, 15]] COIN_MODE = some NORMAL_MODE := by decide
example : round_trip ⟨1, 0, 0, 0⟩ [[0]] NORMAL_MODE = none := by decide
example : mario_movement_to_loot ⟨1, 0, 0, 0⟩ [[13]] 13 = none := by decide
example : mario_movement_to_loot ⟨0, 0, 0, 0⟩ [[1, 13]] 13 = some DOWN_ARROW := by decide
example : mario_movement_to_loot ⟨1, 0, 0, 0⟩ [[1, 13]] 13 = some BUTTON_A := by decide
example : game_fsm ⟨1, 0, 3, 10⟩ ENEMY_MODE [[1]] = some (BUTTON_A, none) := by decide
example : game_fsm ⟨1, 0, 3, 10⟩ NORMAL_MODE [[0, 1]] = none := by decide
example : next_state [[0, 1]] ENEMY_MODE = none := by decide
example : next_state [[0, 1, 15]] NORMAL_MODE = none := by decide
example : next_state [[0, 1, 0, 15]] NORMAL_MODE = some ENEMY_MODE := by decide
